import Mathlib

set_option maxRecDepth 40000

/-!
Shallow embedding of the authentication core of the bug-free-blog-backend
repository (src/app/core/security.py, src/app/core/database.py,
src/app/api/auth.py) and proofs about the spec's claims on it.

Conventions:
- Python strings are Lean `String`s; machine time is `Int` Unix seconds.
- Third-party behavior that the source delegates to (python-jose JWT
  encode/decode, passlib CryptContext with the bcrypt scheme, psycopg2
  connections) is modelled by executable Lean functions that are faithful to
  the library contracts the source relies on.  Randomness (the per-call
  bcrypt salt) and the clock are explicit parameters.
- Fallible Python code returns `Except`; an uncaught exception at the route
  boundary is the FastAPI 500 outcome.
- Database effects are made explicit: each endpoint returns its result
  together with the durable store state and a trace of connection events.
-/

namespace BlogAuth

instance {ε α : Type} [DecidableEq ε] [DecidableEq α] : DecidableEq (Except ε α) := fun a b =>
  match a, b with
  | .ok x, .ok y =>
    if h : x = y then isTrue (by rw [h])
    else isFalse (by intro hh; injection hh; contradiction)
  | .error x, .error y =>
    if h : x = y then isTrue (by rw [h])
    else isFalse (by intro hh; injection hh; contradiction)
  | .ok _, .error _ => isFalse (by intro hh; cases hh)
  | .error _, .ok _ => isFalse (by intro hh; cases hh)

/-! ### An injective, executable serialization used to model opaque wire
strings (compact JWS tokens, bcrypt modular-crypt hash strings).

Each payload character is tagged with a leading 'c'; 'e' terminates a field.
Naturals are unary ('s' for successor, 'z' for zero).  This stands in for
base64url/JSON framing: what matters for the embedding is only that encoding
is injective and decoding is total and executable. -/

def encField : List Char → List Char
  | [] => ['e']
  | c :: cs => 'c' :: c :: encField cs

def decField : List Char → Option (List Char × List Char)
  | 'e' :: rest => some ([], rest)
  | 'c' :: c :: rest =>
    match decField rest with
    | some (s, r) => some (c :: s, r)
    | none => none
  | _ => none

def encNat : Nat → List Char
  | 0 => ['z']
  | n + 1 => 's' :: encNat n

def decNat : List Char → Option (Nat × List Char)
  | 'z' :: rest => some (0, rest)
  | 's' :: rest =>
    match decNat rest with
    | some (n, r) => some (n + 1, r)
    | none => none
  | _ => none

def encInt (i : Int) : List Char :=
  (if i < 0 then 'n' else 'p') :: encNat i.natAbs

def decInt : List Char → Option (Int × List Char)
  | 'p' :: r =>
    match decNat r with
    | some (n, rr) => some ((n : Int), rr)
    | none => none
  | 'n' :: r =>
    match decNat r with
    | some (n, rr) => some (-(n : Int), rr)
    | none => none
  | _ => none

/-! ### Token Service model (src/app/core/security.py lines 22-24, 54-97,
delegating to python-jose `jwt.encode` / `jwt.decode`).

A JWT payload here carries exactly the claims the source puts in it: an
optional string subject and an absolute integer expiry.  A signed token is
serialized as a string whose embedded copy of the signing key stands for the
HMAC signature: `jwtDecode`'s key comparison models signature verification
(the model string is not the real wire format, so no key is "revealed").
python-jose raises JWTError when the structure is malformed, the signature
does not verify, the header algorithm is not in the allowed list, or the
expiry is in the past (`exp < now`); all of those are `JWTError` values. -/

structure JwtPayload where
  sub : Option String
  exp : Int
deriving Repr, DecidableEq

inductive JWTError
  | malformed
  | invalidSignature
  | expired
deriving Repr, DecidableEq

def encSub : Option String → List Char
  | none => ['x']
  | some s => 'y' :: encField s.data

def decSub : List Char → Option (Option String × List Char)
  | 'x' :: r => some (none, r)
  | 'y' :: r =>
    match decField r with
    | some (s, rr) => some (some (String.mk s), rr)
    | none => none
  | _ => none

def jwtEncode (key alg : String) (p : JwtPayload) : String :=
  String.mk ('J' :: (encField key.data ++ (encField alg.data ++ (encSub p.sub ++ encInt p.exp))))

def jwtDecode (key : String) (algs : List String) (now : Int) (tok : String) :
    Except JWTError JwtPayload :=
  match tok.data with
  | 'J' :: r =>
    match decField r with
    | none => .error .malformed
    | some (k, r1) =>
      match decField r1 with
      | none => .error .malformed
      | some (a, r2) =>
        match decSub r2 with
        | none => .error .malformed
        | some (sub, r3) =>
          match decInt r3 with
          | none => .error .malformed
          | some (e, r4) =>
            if r4 = [] then
              if String.mk k = key ∧ String.mk a ∈ algs then
                if e < now then .error .expired
                else .ok { sub := sub, exp := e }
              else .error .invalidSignature
            else .error .malformed
  | _ => .error .malformed

/-- Process-wide security configuration, read once from the environment
(src/app/core/security.py lines 22-24): SECRET_KEY, ALGORITHM,
ACCESS_TOKEN_EXPIRE_MINUTES (parsed with Python `int`, hence an `Int`). -/
structure SecurityConfig where
  secret_key : String
  algorithm : String
  access_token_expire_minutes : Int
deriving Repr, DecidableEq

/-- The `subject: str | int` union type of `create_access_token`. -/
inductive Subject
  | str (s : String)
  | int (i : Int)
deriving Repr, DecidableEq

/-- Python `str(subject)`: identity on strings, decimal rendering on ints
(Lean's `toString` on `Int` agrees with Python's, sign included). -/
def pyStr : Subject → String
  | .str s => s
  | .int i => toString i

/-- src/app/core/security.py lines 54-77.  `expires_delta` is an optional
timedelta in seconds; the default is `timedelta(minutes=ACCESS_TOKEN_EXPIRE_MINUTES)`.
The payload is `\x7b"sub": str(subject), "exp": now + delta\x7d`. -/
def create_access_token (cfg : SecurityConfig) (now : Int) (subject : Subject)
    (expires_delta : Option Int) : String :=
  let sub := pyStr subject
  let expire := now + (match expires_delta with
    | some d => d
    | none => 60 * cfg.access_token_expire_minutes)
  jwtEncode cfg.secret_key cfg.algorithm { sub := some sub, exp := expire }

/-- src/app/core/security.py lines 79-97:
`jwt.decode(token, SECRET_KEY, algorithms=[ALGORITHM])`. -/
def decode_token (cfg : SecurityConfig) (now : Int) (token : String) :
    Except JWTError JwtPayload :=
  jwtDecode cfg.secret_key [cfg.algorithm] now token

/-! ### Password Hashing Service model (src/app/core/security.py lines 17-52,
delegating to passlib `CryptContext(schemes=["bcrypt"], deprecated="auto")`).

Library contract the source relies on (passlib 1.7 with the bcrypt backend):
- `CryptContext.hash` generates a fresh random salt per call (here an explicit
  `salt` parameter), truncates the secret to bcrypt's 72-byte limit silently
  (`truncate_error` is off by default), and raises `NullPasswordError`
  (a `ValueError`) if the secret contains a NUL byte — the bcrypt algorithm
  cannot process NULs.
- `CryptContext.verify` first identifies the hash string; if it cannot be
  parsed as a hash of a configured scheme it raises `UnknownHashError`
  (a `ValueError`).  Otherwise it recomputes the digest with the embedded
  parameters and compares.  It, too, raises on NUL-containing secrets.

The digest is modelled as the truncated secret itself: the embedding captures
functional behavior (what verifies against what, and when the library
raises), not one-wayness.  The hash string embeds the salt, so two hashes of
the same password under different salts are different strings, as in bcrypt. -/

inductive PasslibError
  | unknownHash
  | nullPassword
deriving Repr, DecidableEq

def NUL : Char := Char.ofNat 0

def bcrypt_truncate (password : String) : List Char := password.data.take 72

def bcrypt_hash_string (salt : String) (password : String) : String :=
  String.mk ('$' :: (encField salt.data ++ encField (bcrypt_truncate password)))

/-- src/app/core/security.py lines 26-39: `pwd_context.hash(password)`, with
the library's internally generated random salt made an explicit argument. -/
def hash_password (salt : String) (password : String) : Except PasslibError String :=
  if password.data.contains NUL then .error .nullPassword
  else .ok (bcrypt_hash_string salt password)

def parse_bcrypt : List Char → Option (List Char × List Char)
  | '$' :: r =>
    match decField r with
    | none => none
    | some (salt, r1) =>
      match decField r1 with
      | none => none
      | some (dig, r2) => if r2 = [] then some (salt, dig) else none
  | _ => none

/-- src/app/core/security.py lines 41-52: `pwd_context.verify(password, hashed)`. -/
def verify_password (password : String) (hashed : String) : Except PasslibError Bool :=
  match parse_bcrypt hashed.data with
  | none => .error .unknownHash
  | some (_, dig) =>
    if password.data.contains NUL then .error .nullPassword
    else .ok (dig = bcrypt_truncate password)

/-! ### Credential store model.

The `test_users` table (one row per user: store-assigned integer id, name,
email, password hash) and the connection events an endpoint performs.
src/app/api/auth.py opens its connections with `psycopg2.connect(CONNINFO)`
(line 24 and lines 79, 114, 174) — a direct, dedicated connection per call —
and closes each in a `finally:` block.  src/app/core/database.py's
`get_db_connection` instead checks a connection out of the bounded
`psycopg_pool.ConnectionPool` (min 1 / max 10) and returns it in a
`finally:`; in src/ that helper is used only by the users CRUD endpoints
(src/app/api/users.py), not by any auth endpoint. -/

structure StoredUser where
  id : Int
  name : String
  email : String
  hashed_password : String
deriving Repr, DecidableEq

structure DB where
  users : List StoredUser
  next_id : Int
deriving Repr, DecidableEq

inductive ConnSource
  | pool
  | direct
deriving Repr, DecidableEq, BEq

inductive Ev
  | decodeCall
  | connect (src : ConnSource)
  | commit
  | release (src : ConnSource)
deriving Repr, DecidableEq, BEq

/-- Event trace of src/app/core/database.py lines 36-55 (`get_db_connection`):
`pool.getconn()` on entry, `pool.putconn(conn)` in `finally:` on every exit. -/
def get_db_connection_events : List Ev := [Ev.connect .pool, Ev.release .pool]

/-! ### Session Resolution (src/app/api/auth.py lines 32-92, `get_current_user`). -/

/-- Cookie name for the JWT (src/app/api/auth.py line 30). -/
def COOKIE_NAME : String := "access_token"

/-- The transport request surface Session Resolution reads: the cookie jar
and the raw Authorization header value. -/
structure Request where
  cookies : List (String × String)
  authorization : Option String
deriving Repr, DecidableEq

/-- Python truthiness of `token` at src/app/api/auth.py lines 55 and 61:
`None` and the empty string are falsy. -/
def pyTruthy : Option String → Bool
  | none => false
  | some s => !(s == "")

def starts_with_chars : List Char → List Char → Bool
  | [], _ => true
  | _ :: _, [] => false
  | p :: ps, c :: cs => p == c && starts_with_chars ps cs

def bearer_lower : List Char := ['b', 'e', 'a', 'r', 'e', 'r', ' ']

/-- `auth.lower().startswith("bearer ")` (src/app/api/auth.py line 57). -/
def has_bearer_scheme (auth : String) : Bool :=
  starts_with_chars bearer_lower (auth.data.map Char.toLower)

/-- Everything after the first space: `auth.split(" ", 1)[1]`
(src/app/api/auth.py line 58; under the startswith guard a space exists). -/
def after_first_space : List Char → Option (List Char)
  | [] => none
  | c :: rest => if c = ' ' then some rest else after_first_space rest

def py_split_once_rest (s : String) : String :=
  match after_first_space s.data with
  | some r => String.mk r
  | none => ""

/-- Python `int(s)` restricted to the forms that occur here: an optional
leading minus sign followed by decimal digits ('+', underscores and
surrounding whitespace, which Python also accepts, are not modelled; every
subject this system issues is `str(int)`, which is canonical). -/
def digits_to_nat : Nat → List Char → Option Nat
  | acc, [] => some acc
  | acc, c :: cs =>
    if c.isDigit then digits_to_nat (acc * 10 + (c.toNat - 48)) cs else none

def py_int (s : String) : Option Int :=
  match s.data with
  | [] => none
  | '-' :: rest =>
    match rest with
    | [] => none
    | _ => (digits_to_nat 0 rest).map (fun n => -(n : Int))
  | l => (digits_to_nat 0 l).map (fun n => (n : Int))

/-- src/app/api/auth.py lines 51-58: cookie preferred; if the cookie value is
falsy, fall back to a bearer-schemed Authorization header. -/
def extract_token (req : Request) : Option String :=
  let token := req.cookies.lookup COOKIE_NAME
  if pyTruthy token then token
  else
    match req.authorization with
    | some auth =>
      if has_bearer_scheme auth then some (py_split_once_rest auth) else token
    | none => token

/-- The FastAPI HTTPException surface: transport status and detail body. -/
structure HErr where
  status : Nat
  detail : String
deriving Repr, DecidableEq

/-- The User response model.  Modelled from the spec: app/schemas/users.py is
absent from src/; per spec section 3 and section 4.3 step 4 (and the
constructor calls `User(id=..., name=..., email=...)` throughout
src/app/api/), it carries identifier, name and email only — no hash field. -/
structure User where
  id : Int
  name : String
  email : String
deriving Repr, DecidableEq

structure GCUOut where
  result : Except HErr User
  events : List Ev
deriving Repr, DecidableEq

/-- src/app/api/auth.py lines 32-92 (`get_current_user`): extract a token,
decode it (any JWTError / ValueError / TypeError collapses to 401
"Invalid token"), parse the subject with `int`, then look the id up over a
direct psycopg2 connection that is closed in `finally:`. -/
def get_current_user (cfg : SecurityConfig) (db : DB) (now : Int) (req : Request) : GCUOut :=
  match extract_token req with
  | none => { result := .error ⟨401, "Not authenticated"⟩, events := [] }
  | some t =>
    if t = "" then { result := .error ⟨401, "Not authenticated"⟩, events := [] }
    else
      match decode_token cfg now t with
      | .error _ => { result := .error ⟨401, "Invalid token"⟩, events := [Ev.decodeCall] }
      | .ok payload =>
        match payload.sub with
        | none => { result := .error ⟨401, "Invalid token"⟩, events := [Ev.decodeCall] }
        | some sub =>
          if sub = "" then { result := .error ⟨401, "Invalid token"⟩, events := [Ev.decodeCall] }
          else
            match py_int sub with
            | none => { result := .error ⟨401, "Invalid token"⟩, events := [Ev.decodeCall] }
            | some uid =>
              match db.users.find? (fun u => u.id == uid) with
              | none =>
                { result := .error ⟨401, "User not found"⟩,
                  events := [Ev.decodeCall, Ev.connect .direct, Ev.release .direct] }
              | some u =>
                { result := .ok ⟨u.id, u.name, u.email⟩,
                  events := [Ev.decodeCall, Ev.connect .direct, Ev.release .direct] }

/-! ### Auth endpoints: register and login (src/app/api/auth.py lines 94-210). -/

structure RegisterInput where
  name : String
  email : String
  password : String
deriving Repr, DecidableEq

structure LoginInput where
  email : String
  password : String
deriving Repr, DecidableEq

structure Token where
  access_token : String
  token_type : String := "bearer"
deriving Repr, DecidableEq

structure RegisterOut where
  result : Except HErr User
  db : DB
  events : List Ev
deriving Repr, DecidableEq

/-- src/app/api/auth.py lines 94-150 (`register`).  `db` is the durable store
state; only `conn.commit()` (line 145) makes the pending INSERT durable.  The
uniqueness read precedes hashing and the insert; a 409 (line 121) or an
uncaught hashing ValueError (surfaced by FastAPI as a 500) exits through the
`finally: conn.close()` with nothing committed.  The post-INSERT
`if not result` 500 branch (line 137) is unreachable: `RETURNING id` always
yields a row, so it is not represented.  `RETURNING id` is the store-assigned
next id. -/
def register (db : DB) (salt : String) (body : RegisterInput) : RegisterOut :=
  let ev0 := [Ev.connect ConnSource.direct]
  match db.users.find? (fun u => u.email == body.email) with
  | some _ =>
    { result := .error ⟨409, "Email already registered"⟩, db := db,
      events := ev0 ++ [Ev.release .direct] }
  | none =>
    match hash_password salt body.password with
    | .error _ =>
      { result := .error ⟨500, "Internal Server Error"⟩, db := db,
        events := ev0 ++ [Ev.release .direct] }
    | .ok hashed_pw =>
      let user_id := db.next_id
      { result := .ok ⟨user_id, body.name, body.email⟩,
        db := { users := db.users ++ [⟨user_id, body.name, body.email, hashed_pw⟩],
                next_id := db.next_id + 1 },
        events := ev0 ++ [Ev.commit, Ev.release .direct] }

/-- The route decorator status (src/app/api/auth.py line 94:
`status_code=status.HTTP_201_CREATED`): 201 on a returned body, the
HTTPException's own status otherwise. -/
def route_status (r : Except HErr User) : Nat :=
  match r with
  | .ok _ => 201
  | .error e => e.status

/-- The Set-Cookie instruction login issues (src/app/api/auth.py lines 198-205). -/
structure SetCookie where
  key : String
  value : String
  httponly : Bool
  samesite : String
  secure : Bool
  max_age : Int
deriving Repr, DecidableEq

structure LoginOut where
  result : Except HErr Token
  cookie : Option SetCookie
  events : List Ev
deriving Repr, DecidableEq

/-- src/app/api/auth.py lines 152-210 (`login`): look the user up by email
over a direct connection, verify the password (a passlib ValueError on a
malformed stored hash is uncaught — FastAPI 500), mint a token with the user
id as subject, and set the cookie with the hard-coded `max_age=60 * 15`. -/
def login (cfg : SecurityConfig) (db : DB) (now : Int) (body : LoginInput) : LoginOut :=
  let ev0 := [Ev.connect ConnSource.direct]
  match db.users.find? (fun u => u.email == body.email) with
  | none =>
    { result := .error ⟨401, "Invalid credentials"⟩, cookie := none,
      events := ev0 ++ [Ev.release .direct] }
  | some row =>
    match verify_password body.password row.hashed_password with
    | .error _ =>
      { result := .error ⟨500, "Internal Server Error"⟩, cookie := none,
        events := ev0 ++ [Ev.release .direct] }
    | .ok false =>
      { result := .error ⟨401, "Invalid credentials"⟩, cookie := none,
        events := ev0 ++ [Ev.release .direct] }
    | .ok true =>
      let token := create_access_token cfg now (Subject.int row.id) none
      { result := .ok { access_token := token },
        cookie := some { key := COOKIE_NAME, value := token, httponly := true,
                         samesite := "lax", secure := false, max_age := 60 * 15 },
        events := ev0 ++ [Ev.release .direct] }

/-! ### Concrete instances used by witnesses and counterexamples. -/

def cfg0 : SecurityConfig := ⟨"k", "HS256", 0⟩

def cfg15 : SecurityConfig := ⟨"k", "HS256", 15⟩

def cfg30 : SecurityConfig := ⟨"k", "HS256", 30⟩

def dbEmpty : DB := ⟨[], 1⟩

def dbOne : DB := ⟨[⟨1, "A", "a@x.com", bcrypt_hash_string "s" "pw"⟩], 2⟩

def bodyOk : RegisterInput := ⟨"A", "a@x.com", "pw"⟩

def bodyDup : RegisterInput := ⟨"B", "a@x.com", "pw2"⟩

def bodyNulPw : RegisterInput := ⟨"B", "b@x.com", String.mk [NUL]⟩

def loginBody : LoginInput := ⟨"a@x.com", "pw"⟩

def tokenValid0 : String := create_access_token cfg0 0 (Subject.int 1) none

/-- The Set-Cookie value a successful login under `cfg15` at time -895
issues (a negative model instant keeps the token's absolute expiry, -895 +
900 = 5, small; only the ttl difference matters). -/
def loginCookie15 : SetCookie :=
  { key := COOKIE_NAME, value := create_access_token cfg15 (-895) (Subject.int 1) none,
    httponly := true, samesite := "lax", secure := false, max_age := 60 * 15 }

def reqCookieTok : Request := ⟨[(COOKIE_NAME, "tok")], some "Bearer zzz"⟩

def reqHeaderOnly : Request := ⟨[], some "Bearer abc"⟩

def reqBare : Request := ⟨[], none⟩

/-- An Authorization header carrying a genuinely valid bearer token. -/
def hdrValid : String := "Bearer " ++ tokenValid0

def cksGarbage : List (String × String) := [(COOKIE_NAME, "garbage")]

/-- Connection acquisitions are balanced: nothing is taken from the pool, and
every direct `psycopg2.connect` is paired with a `conn.close()`. -/
def balanced_events (evs : List Ev) : Prop :=
  evs.count (Ev.connect .pool) = 0 ∧
  evs.count (Ev.connect .direct) = evs.count (Ev.release .direct)

/-! ### Serialization round-trip lemmas. -/

theorem mk_data_eta (s : String) : String.mk s.data = s := rfl

theorem decField_encField (s rest : List Char) :
    decField (encField s ++ rest) = some (s, rest) := by
  induction s with
  | nil => rfl
  | cons c cs ih => simp [encField, decField, ih]

theorem decNat_encNat (n : Nat) (rest : List Char) :
    decNat (encNat n ++ rest) = some (n, rest) := by
  induction n with
  | zero => rfl
  | succ m ih => simp [encNat, decNat, ih]

theorem decInt_encInt (i : Int) (rest : List Char) :
    decInt (encInt i ++ rest) = some (i, rest) := by
  by_cases h : i < 0
  · simp [encInt, decInt, h, decNat_encNat]
    rw [abs_of_nonpos h.le, neg_neg]
  · simp [encInt, decInt, h, decNat_encNat]
    exact not_lt.mp h

theorem decInt_encInt_nil (i : Int) : decInt (encInt i) = some (i, []) := by
  simpa using decInt_encInt i []

theorem decSub_encSub (s : Option String) (rest : List Char) :
    decSub (encSub s ++ rest) = some (s, rest) := by
  cases s with
  | none => rfl
  | some v => simp [encSub, decSub, decField_encField, mk_data_eta]

/-- Decoding a freshly signed token with the same key and allowed algorithm
recovers the payload, provided the expiry is not already in the past. -/
theorem jwtDecode_jwtEncode (key alg : String) (p : JwtPayload) (now : Int)
    (h : ¬ p.exp < now) :
    jwtDecode key [alg] now (jwtEncode key alg p) = .ok p := by
  have hd : (jwtEncode key alg p).data =
      'J' :: (encField key.data ++ (encField alg.data ++ (encSub p.sub ++ encInt p.exp))) := rfl
  unfold jwtDecode
  rw [hd]
  simp [decField_encField, decSub_encSub, decInt_encInt_nil, mk_data_eta, h]

/-- C5: decoding a token immediately after issuing it (same `now`, default
ttl, any configuration with a nonnegative token-ttl setting) succeeds and the
subject claim equals `str(subject)`. -/
theorem C5_decode_issue_roundtrip (cfg : SecurityConfig) (now : Int) (subject : Subject)
    (h : 0 ≤ cfg.access_token_expire_minutes) :
    decode_token cfg now (create_access_token cfg now subject none) =
      .ok { sub := some (pyStr subject), exp := now + 60 * cfg.access_token_expire_minutes } := by
  have hexp : ¬ (now + 60 * cfg.access_token_expire_minutes < now) := by omega
  unfold decode_token create_access_token
  exact jwtDecode_jwtEncode cfg.secret_key cfg.algorithm
    ⟨some (pyStr subject), now + 60 * cfg.access_token_expire_minutes⟩ now hexp

/-- C5 witness: concrete run at cfg0, subject 1, time 0. -/
theorem C5_witness :
    0 ≤ cfg0.access_token_expire_minutes ∧
    decode_token cfg0 0 (create_access_token cfg0 0 (Subject.int 1) none) =
      .ok { sub := some (pyStr (Subject.int 1)), exp := 0 + 60 * cfg0.access_token_expire_minutes } :=
  ⟨by decide, C5_decode_issue_roundtrip cfg0 0 (Subject.int 1) (by decide)⟩

/-! ### Password hashing claims (C2, C6). -/

theorem decField_encField_nil (s : List Char) : decField (encField s) = some (s, []) := by
  simpa using decField_encField s []

theorem parse_bcrypt_hash_string (salt password : String) :
    parse_bcrypt (bcrypt_hash_string salt password).data =
      some (salt.data, bcrypt_truncate password) := by
  have hd : (bcrypt_hash_string salt password).data =
      '$' :: (encField salt.data ++ encField (bcrypt_truncate password)) := rfl
  unfold parse_bcrypt
  rw [hd]
  simp [decField_encField, decField_encField_nil]

/-- C2 (amended): for a hash string that does not parse as a bcrypt hash,
`verify_password` raises passlib's UnknownHashError (a ValueError) instead of
returning false; it does not return a boolean at all on such input. -/
theorem C2_amended_malformed_hash_raises (p h : String)
    (hm : parse_bcrypt h.data = none) :
    verify_password p h = .error .unknownHash := by
  simp [verify_password, hm]

/-- C2 counterexample: on a malformed hash string the source's
`pwd_context.verify` call raises (UnknownHashError) rather than evaluating to
false, refuting "returns false and never raises an exception". -/
theorem C2_counterexample :
    verify_password "password" "not-a-valid-hash" = .error .unknownHash := rfl

/-- C2 witness: concrete malformed-hash run. -/
theorem C2_witness :
    parse_bcrypt ("plain" : String).data = none ∧
    verify_password "pw" "plain" = .error .unknownHash :=
  ⟨rfl, C2_amended_malformed_hash_raises "pw" "plain" rfl⟩

/-- C6 (amended): for every password string without NUL bytes (including the
empty string), hashing succeeds and verifying the same password against the
produced hash returns true; for a password containing a NUL byte, `hash`
raises ValueError (bcrypt's NullPasswordError) instead of returning a hash. -/
theorem C6_amended_roundtrip_without_nul (salt p : String) :
    (p.data.contains NUL = false →
      (hash_password salt p).bind (verify_password p) = .ok true) ∧
    (p.data.contains NUL = true → hash_password salt p = .error .nullPassword) := by
  constructor
  · intro hn
    have hn' : NUL ∉ p.data := by simpa using hn
    simp [hash_password, hn', Except.bind, verify_password, parse_bcrypt_hash_string]
  · intro hn
    have hn' : NUL ∈ p.data := by simpa using hn
    simp [hash_password, hn']

/-- C6 counterexample: `hash` raises on the one-character string consisting of
a NUL byte, refuting "hash never raises for any input string". -/
theorem C6_counterexample :
    hash_password "somesalt" (String.mk [NUL]) = .error .nullPassword := rfl

/-- C6 witness: the round trip on the empty password. -/
theorem C6_witness :
    (("" : String).data.contains NUL = false) ∧
    (hash_password "ab" "").bind (verify_password "") = .ok true :=
  ⟨rfl, (C6_amended_roundtrip_without_nul "ab" "").1 rfl⟩

/-! ### Session resolution claims (C1, C7, C9). -/

/-- Every possible `get_current_user` outcome: the three 401 error literals
the source raises (lines 62, 71/76, 87 of src/app/api/auth.py) or a user. -/
theorem gcu_result_cases (cfg : SecurityConfig) (db : DB) (now : Int) (req : Request) :
    (get_current_user cfg db now req).result = .error ⟨401, "Not authenticated"⟩ ∨
    (get_current_user cfg db now req).result = .error ⟨401, "Invalid token"⟩ ∨
    (get_current_user cfg db now req).result = .error ⟨401, "User not found"⟩ ∨
    ∃ u, (get_current_user cfg db now req).result = .ok u := by
  unfold get_current_user
  repeat' split
  all_goals simp

/-- C1 (amended): every session-resolution failure produces transport status
401 (never 500), but the response detail string does reveal the failure
class: "Not authenticated" for a missing token, "Invalid token" for decode or
subject failures, "User not found" for a vanished user. -/
theorem C1_amended_all_failures_401 (cfg : SecurityConfig) (db : DB) (now : Int)
    (req : Request) (e : HErr)
    (h : (get_current_user cfg db now req).result = .error e) :
    e.status = 401 ∧
      (e.detail = "Not authenticated" ∨ e.detail = "Invalid token" ∨
       e.detail = "User not found") := by
  rcases gcu_result_cases cfg db now req with h1 | h1 | h1 | ⟨u, h1⟩ <;> rw [h1] at h
  · injection h with h2
    subst h2
    exact ⟨rfl, Or.inl rfl⟩
  · injection h with h2
    subst h2
    exact ⟨rfl, Or.inr (Or.inl rfl)⟩
  · injection h with h2
    subst h2
    exact ⟨rfl, Or.inr (Or.inr rfl)⟩
  · exact Except.noConfusion h

/-- C1 counterexample: three of the claim's listed failure modes — missing
token, undecodable token, and a valid token whose user no longer exists —
yield pairwise different response bodies (the `detail` field differs), so the
responses do reveal which check failed, refuting "no observable difference in
the response".  (All carry status 401; that part of the claim holds.) -/
theorem C1_counterexample :
    (get_current_user cfg0 dbEmpty 0 ⟨[], none⟩).result =
      .error ⟨401, "Not authenticated"⟩ ∧
    (get_current_user cfg0 dbEmpty 0 ⟨cksGarbage, none⟩).result =
      .error ⟨401, "Invalid token"⟩ ∧
    (get_current_user cfg0 dbEmpty 0 ⟨[(COOKIE_NAME, tokenValid0)], none⟩).result =
      .error ⟨401, "User not found"⟩ ∧
    ("Not authenticated" : String) ≠ "Invalid token" ∧
    ("Invalid token" : String) ≠ "User not found" ∧
    ("Not authenticated" : String) ≠ "User not found" :=
  ⟨rfl, rfl, rfl, by decide, by decide, by decide⟩

/-- C1 witness: the amended theorem at a concrete failing request. -/
theorem C1_witness :
    (⟨401, "Invalid token"⟩ : HErr).status = 401 ∧
      ((⟨401, "Invalid token"⟩ : HErr).detail = "Not authenticated" ∨
       (⟨401, "Invalid token"⟩ : HErr).detail = "Invalid token" ∨
       (⟨401, "Invalid token"⟩ : HErr).detail = "User not found") :=
  C1_amended_all_failures_401 cfg0 dbEmpty 0 ⟨cksGarbage, none⟩ ⟨401, "Invalid token"⟩ rfl

/-- C7: token extraction order.  A non-empty `access_token` cookie is always
the candidate; with no cookie, a bearer-schemed Authorization header supplies
the text after the first space; when extraction yields no (truthy) token,
resolution fails 401 "Not authenticated" with an empty effect trace — the
token service is never called and no store connection is opened. -/
theorem C7_extraction_order (cfg : SecurityConfig) (db : DB) (now : Int) (req : Request) :
    (∀ v, req.cookies.lookup COOKIE_NAME = some v → (v == "") = false →
      extract_token req = some v) ∧
    (req.cookies.lookup COOKIE_NAME = none →
      ∀ a, req.authorization = some a → has_bearer_scheme a = true →
        extract_token req = some (py_split_once_rest a)) ∧
    (pyTruthy (extract_token req) = false →
      get_current_user cfg db now req =
        { result := .error ⟨401, "Not authenticated"⟩, events := [] }) := by
  refine ⟨?_, ?_, ?_⟩
  · intro v hv hne
    simp [extract_token, hv, pyTruthy, hne]
  · intro hc a ha hb
    simp [extract_token, hc, ha, hb, pyTruthy]
  · intro hf
    unfold get_current_user
    rcases hx : extract_token req with _ | t
    · rfl
    · rw [hx] at hf
      have ht : t = "" := by simpa [pyTruthy] using hf
      simp [ht]

/-- C7 witness: cookie wins; header used when no cookie; both absent gives a
bare 401 with no decode and no store access. -/
theorem C7_witness :
    extract_token reqCookieTok = some "tok" ∧
    extract_token reqHeaderOnly = some (py_split_once_rest "Bearer abc") ∧
    get_current_user cfg0 dbEmpty 0 reqBare =
      { result := .error ⟨401, "Not authenticated"⟩, events := [] } :=
  ⟨(C7_extraction_order cfg0 dbEmpty 0 reqCookieTok).1 "tok" rfl rfl,
   (C7_extraction_order cfg0 dbEmpty 0 reqHeaderOnly).2.1 rfl "Bearer abc" rfl rfl,
   (C7_extraction_order cfg0 dbEmpty 0 reqBare).2.2 rfl⟩

/-- C9: cookie precedence is absolute.  With a non-empty cookie the header is
never consulted (resolution is invariant in it), an invalid non-empty cookie
token fails resolution 401 whatever the header carries, and an empty-string
cookie value behaves exactly like an absent cookie. -/
theorem C9_cookie_precedence_absolute (cfg : SecurityConfig) (db : DB) (now : Int) :
    (∀ cks (c : String) a a2, cks.lookup COOKIE_NAME = some c → (c == "") = false →
      get_current_user cfg db now ⟨cks, a⟩ = get_current_user cfg db now ⟨cks, a2⟩) ∧
    (∀ cks cks2 a, cks.lookup COOKIE_NAME = some "" → cks2.lookup COOKIE_NAME = none →
      get_current_user cfg db now ⟨cks, a⟩ = get_current_user cfg db now ⟨cks2, a⟩) ∧
    (∀ cks (c : String) a e, cks.lookup COOKIE_NAME = some c → (c == "") = false →
      decode_token cfg now c = .error e →
      (get_current_user cfg db now ⟨cks, a⟩).result = .error ⟨401, "Invalid token"⟩) := by
  refine ⟨?_, ?_, ?_⟩
  · intro cks c a a2 hc hne
    have h1 : extract_token ⟨cks, a⟩ = some c := by simp [extract_token, hc, pyTruthy, hne]
    have h2 : extract_token ⟨cks, a2⟩ = some c := by simp [extract_token, hc, pyTruthy, hne]
    unfold get_current_user
    rw [h1, h2]
  · intro cks cks2 a h0 hn
    cases a with
    | none =>
      have e1 : extract_token ⟨cks, none⟩ = some "" := by simp [extract_token, h0, pyTruthy]
      have e2 : extract_token ⟨cks2, none⟩ = none := by simp [extract_token, hn, pyTruthy]
      unfold get_current_user
      rw [e1, e2]
      simp
    | some s =>
      by_cases hb : has_bearer_scheme s
      · have e1 : extract_token ⟨cks, some s⟩ = some (py_split_once_rest s) := by
          simp [extract_token, h0, pyTruthy, hb]
        have e2 : extract_token ⟨cks2, some s⟩ = some (py_split_once_rest s) := by
          simp [extract_token, hn, pyTruthy, hb]
        unfold get_current_user
        rw [e1, e2]
      · have e1 : extract_token ⟨cks, some s⟩ = some "" := by
          simp [extract_token, h0, pyTruthy, hb]
        have e2 : extract_token ⟨cks2, some s⟩ = none := by
          simp [extract_token, hn, pyTruthy, hb]
        unfold get_current_user
        rw [e1, e2]
        simp
  · intro cks c a e hc hne hd
    have h1 : extract_token ⟨cks, a⟩ = some c := by simp [extract_token, hc, pyTruthy, hne]
    have hne' : ¬ c = "" := by simpa using hne
    unfold get_current_user
    rw [h1]
    simp [hne', hd]

/-- C9 witness: an invalid cookie shadows a valid bearer header (same 401
whatever the header is), and an empty cookie falls through to the header. -/
theorem C9_witness :
    get_current_user cfg0 dbEmpty 0 ⟨cksGarbage, some hdrValid⟩ =
      get_current_user cfg0 dbEmpty 0 ⟨cksGarbage, none⟩ ∧
    (get_current_user cfg0 dbEmpty 0 ⟨cksGarbage, some hdrValid⟩).result =
      .error ⟨401, "Invalid token"⟩ ∧
    get_current_user cfg0 dbEmpty 0 ⟨[(COOKIE_NAME, "")], some hdrValid⟩ =
      get_current_user cfg0 dbEmpty 0 ⟨[], some hdrValid⟩ :=
  ⟨(C9_cookie_precedence_absolute cfg0 dbEmpty 0).1 cksGarbage "garbage"
      (some hdrValid) none rfl rfl,
   (C9_cookie_precedence_absolute cfg0 dbEmpty 0).2.2 cksGarbage "garbage"
      (some hdrValid) JWTError.malformed rfl rfl rfl,
   (C9_cookie_precedence_absolute cfg0 dbEmpty 0).2.1 [(COOKIE_NAME, "")] []
      (some hdrValid) rfl rfl⟩

/-! ### Register / login claims (C3, C4, C8, C10). -/

/-- The three paths of `register`: conflict, uncaught hashing error, success. -/
theorem register_cases (db : DB) (salt : String) (body : RegisterInput) :
    register db salt body =
      { result := .error ⟨409, "Email already registered"⟩, db := db,
        events := [Ev.connect .direct, Ev.release .direct] } ∨
    register db salt body =
      { result := .error ⟨500, "Internal Server Error"⟩, db := db,
        events := [Ev.connect .direct, Ev.release .direct] } ∨
    ∃ hp, register db salt body =
      { result := .ok ⟨db.next_id, body.name, body.email⟩,
        db := { users := db.users ++ [⟨db.next_id, body.name, body.email, hp⟩],
                next_id := db.next_id + 1 },
        events := [Ev.connect .direct, Ev.commit, Ev.release .direct] } := by
  unfold register
  repeat' split
  all_goals simp

theorem gcu_events_cases (cfg : SecurityConfig) (db : DB) (now : Int) (req : Request) :
    (get_current_user cfg db now req).events = [] ∨
    (get_current_user cfg db now req).events = [Ev.decodeCall] ∨
    (get_current_user cfg db now req).events =
      [Ev.decodeCall, Ev.connect .direct, Ev.release .direct] := by
  unfold get_current_user
  repeat' split
  all_goals simp

theorem login_events (cfg : SecurityConfig) (db : DB) (now : Int) (body : LoginInput) :
    (login cfg db now body).events = [Ev.connect .direct, Ev.release .direct] := by
  unfold login
  repeat' split
  all_goals simp

theorem register_events_cases (db : DB) (salt : String) (body : RegisterInput) :
    (register db salt body).events = [Ev.connect .direct, Ev.release .direct] ∨
    (register db salt body).events = [Ev.connect .direct, Ev.commit, Ev.release .direct] := by
  rcases register_cases db salt body with h | h | ⟨hp, h⟩ <;> rw [h]
  · exact Or.inl rfl
  · exact Or.inl rfl
  · exact Or.inr rfl

/-- The possible cookie outcomes of `login`: none, or the success cookie with
the hard-coded `max_age := 60 * 15`. -/
theorem login_cookie_cases (cfg : SecurityConfig) (db : DB) (now : Int) (body : LoginInput) :
    (login cfg db now body).cookie = none ∨
    ∃ row : StoredUser, (login cfg db now body).cookie =
      some { key := COOKIE_NAME, value := create_access_token cfg now (Subject.int row.id) none,
             httponly := true, samesite := "lax", secure := false, max_age := 60 * 15 } := by
  unfold login
  split
  · exact Or.inl rfl
  · split
    · exact Or.inl rfl
    · exact Or.inl rfl
    · exact Or.inr ⟨_, rfl⟩

/-- C3 (amended): the session cookie's Max-Age is the constant 900 seconds
(hard-coded `60 * 15`), independent of the configured token ttl; it equals
the issued token's ttl in seconds exactly when the ttl setting is 15 minutes
(its default). -/
theorem C3_amended_cookie_max_age_fixed (cfg : SecurityConfig) (db : DB) (now : Int)
    (body : LoginInput) (c : SetCookie)
    (h : (login cfg db now body).cookie = some c) :
    c.max_age = 900 ∧
    (c.max_age = 60 * cfg.access_token_expire_minutes ↔
      cfg.access_token_expire_minutes = 15) := by
  rcases login_cookie_cases cfg db now body with h0 | ⟨row, h0⟩
  · rw [h0] at h
    exact Option.noConfusion h
  · rw [h0] at h
    injection h with h2
    subst h2
    dsimp only
    omega

/-- C3 counterexample: with the token-ttl setting at 30 minutes, a login at
instant -1795 issues a token whose expiry is at instant 5, i.e. 1800 seconds
out, but sets the cookie with Max-Age 900 — the cookie lifetime does not
mirror the token's expiry. -/
theorem C3_counterexample :
    (login cfg30 dbOne (-1795) loginBody).result =
      .ok { access_token := create_access_token cfg30 (-1795) (Subject.int 1) none } ∧
    decode_token cfg30 (-1795) (create_access_token cfg30 (-1795) (Subject.int 1) none) =
      .ok ⟨some "1", 5⟩ ∧
    (5 : Int) - (-1795) = 1800 ∧
    (login cfg30 dbOne (-1795) loginBody).cookie.map SetCookie.max_age = some 900 ∧
    (900 : Int) ≠ 1800 :=
  ⟨rfl, rfl, by decide, rfl, by decide⟩

/-- C3 witness: the amended theorem at the default 15-minute configuration. -/
theorem C3_witness :
    (login cfg15 dbOne (-895) loginBody).cookie = some loginCookie15 ∧
    loginCookie15.max_age = 900 ∧
    (loginCookie15.max_age = 60 * cfg15.access_token_expire_minutes ↔
      cfg15.access_token_expire_minutes = 15) := by
  have hc : (login cfg15 dbOne (-895) loginBody).cookie = some loginCookie15 := rfl
  exact ⟨hc, C3_amended_cookie_max_age_fixed cfg15 dbOne (-895) loginBody loginCookie15 hc⟩

/-- C4 (amended): none of the auth operations (session resolution, register,
login) ever touches the bounded pool — each opens a dedicated direct
`psycopg2` connection — and every direct acquisition is paired with a close
on every exit path; the pooled helper `get_db_connection` pairs its own
acquisition with a release, but in src/ it is used only by the users CRUD
endpoints, not by the auth core. -/
theorem C4_amended_direct_connections_paired (cfg : SecurityConfig) (db : DB)
    (now : Int) (req : Request) (salt : String) (rbody : RegisterInput)
    (lbody : LoginInput) :
    balanced_events (get_current_user cfg db now req).events ∧
    balanced_events (register db salt rbody).events ∧
    balanced_events (login cfg db now lbody).events ∧
    get_db_connection_events.count (Ev.connect .pool) =
      get_db_connection_events.count (Ev.release .pool) := by
  refine ⟨?_, ?_, ?_, rfl⟩
  · rcases gcu_events_cases cfg db now req with h | h | h <;> rw [h] <;> exact ⟨rfl, rfl⟩
  · rcases register_events_cases db salt rbody with h | h <;> rw [h] <;> exact ⟨rfl, rfl⟩
  · rw [login_events]
    exact ⟨rfl, rfl⟩

/-- C4 counterexample: a register call — a credential-store operation of the
core — performs one direct connection and zero pool acquisitions, refuting
"every credential-store operation acquires its connection from the bounded
pool". -/
theorem C4_counterexample :
    (register dbEmpty "s" bodyOk).events =
      [Ev.connect .direct, Ev.commit, Ev.release .direct] ∧
    (register dbEmpty "s" bodyOk).events.count (Ev.connect .pool) = 0 ∧
    (register dbEmpty "s" bodyOk).events.count (Ev.connect .direct) = 1 :=
  ⟨rfl, rfl, rfl⟩

/-- C8 (amended): register fails 409 exactly when the uniqueness read finds
the email; otherwise — provided the password is bcrypt-hashable (contains no
NUL byte) — it inserts and returns 201 with the store-assigned id, the name
and the email (the response type carries no hash field). -/
theorem C8_amended_conflict_iff_present (db : DB) (salt : String) (body : RegisterInput) :
    ((register db salt body).result = .error ⟨409, "Email already registered"⟩ ↔
      (db.users.find? (fun u => u.email == body.email)).isSome = true) ∧
    (db.users.find? (fun u => u.email == body.email) = none →
      body.password.data.contains NUL = false →
      (register db salt body).result = .ok ⟨db.next_id, body.name, body.email⟩ ∧
      route_status (register db salt body).result = 201) := by
  cases hf : db.users.find? (fun u => u.email == body.email) with
  | some u =>
    constructor
    · have hr : (register db salt body).result = .error ⟨409, "Email already registered"⟩ := by
        simp [register, hf]
      rw [hr]
      simp
    · intro h0
      exact Option.noConfusion h0
  | none =>
    constructor
    · constructor
      · intro h
        rcases hh : hash_password salt body.password with e0 | hp
        · have hr : (register db salt body).result = .error ⟨500, "Internal Server Error"⟩ := by
            simp [register, hf, hh]
          rw [hr] at h
          simp at h
        · have hr : (register db salt body).result = .ok ⟨db.next_id, body.name, body.email⟩ := by
            simp [register, hf, hh]
          rw [hr] at h
          simp at h
      · intro hIsSome
        simp at hIsSome
    · intro _ hnul
      have hn' : NUL ∉ body.password.data := by simpa using hnul
      have hh : hash_password salt body.password = .ok (bcrypt_hash_string salt body.password) := by
        simp [hash_password, hn']
      refine ⟨by simp [register, hf, hh], ?_⟩
      have hr : (register db salt body).result = .ok ⟨db.next_id, body.name, body.email⟩ := by
        simp [register, hf, hh]
      rw [hr]
      rfl

/-- C8 counterexample: with a fresh email but a NUL-containing password the
uncaught bcrypt ValueError surfaces as a 500, not the claimed 201 — so
"otherwise inserts the new user and returns 201" does not hold for every
input. -/
theorem C8_counterexample :
    dbEmpty.users.find? (fun u => u.email == bodyNulPw.email) = none ∧
    (register dbEmpty "s" bodyNulPw).result = .error ⟨500, "Internal Server Error"⟩ ∧
    route_status (register dbEmpty "s" bodyNulPw).result = 500 :=
  ⟨rfl, rfl, rfl⟩

/-- C8 witness: a fresh registration on an empty store. -/
theorem C8_witness :
    (register dbEmpty "s" bodyOk).result = .ok ⟨dbEmpty.next_id, bodyOk.name, bodyOk.email⟩ ∧
    route_status (register dbEmpty "s" bodyOk).result = 201 :=
  (C8_amended_conflict_iff_present dbEmpty "s" bodyOk).2 rfl rfl

/-- C10: register commits nothing on any failure path — on a 409 conflict or
any pre-commit error the durable store is unchanged and no commit event is
issued — and the connection is closed (the trace ends with the direct
release) on every exit path. -/
theorem C10_register_atomic_on_failure (db : DB) (salt : String) (body : RegisterInput) :
    (∀ e, (register db salt body).result = .error e →
      (register db salt body).events.count Ev.commit = 0 ∧
      (register db salt body).db = db) ∧
    (register db salt body).events.getLast? = some (Ev.release .direct) := by
  rcases register_cases db salt body with h | h | ⟨hp, h⟩ <;> rw [h]
  · exact ⟨fun e he => ⟨rfl, rfl⟩, rfl⟩
  · exact ⟨fun e he => ⟨rfl, rfl⟩, rfl⟩
  · exact ⟨fun e he => Except.noConfusion he, rfl⟩

/-- C10 witness: a conflicting registration leaves the store untouched,
commits nothing, and still closes its connection. -/
theorem C10_witness :
    ((register dbOne "s" bodyDup).events.count Ev.commit = 0 ∧
     (register dbOne "s" bodyDup).db = dbOne) ∧
    (register dbOne "s" bodyDup).events.getLast? = some (Ev.release .direct) :=
  ⟨(C10_register_atomic_on_failure dbOne "s" bodyDup).1 ⟨409, "Email already registered"⟩ rfl,
   (C10_register_atomic_on_failure dbOne "s" bodyDup).2⟩

end BlogAuth
